import Mathlib

/-! Shallow embedding of the `cookies` Go package (`cookies.go`): a
declarative cookie intent is compiled into a validated cookie attribute
record.

Modelling conventions:
 - Go strings are modelled as `List Char`; the byte-level checks of the
   delegated `net/http` validation are modelled at character level (ASCII
   characters are single bytes, and every non-ASCII character encodes to
   bytes that fail the relevant byte predicates, so the verdicts agree).
 - `time.Time` is modelled as a count of nanoseconds from Go's zero time
   (January 1, year 1, UTC); locations are modelled as UTC.
 - `time.Duration` is modelled as an `Int` number of nanoseconds.
 - Fallible Go functions returning `(..., error)` are modelled with `Except`
   over small inductive error types, one constructor per `fmt.Errorf` site.
-/

namespace Cookies

abbrev GoStr := List Char

/-- Model of `time.Time`: nanoseconds since Go's zero time (Jan 1, year 1, UTC). -/
structure GoTime where
  ns : Int
deriving DecidableEq

def GoTime.zero : GoTime := ⟨0⟩

/-- Model of `time.Time.IsZero`. -/
def GoTime.isZero (t : GoTime) : Bool := t.ns == 0

/-- Model of `type Source string`. -/
abbrev Source := GoStr

/-- Constant `SameSite Source = "A->A"`. -/
def SameSite : Source := "A->A".toList

/-- Constant `SameSiteOrAnySiteByUser Source = "A->A,*-(user)->A"`. -/
def SameSiteOrAnySiteByUser : Source := "A->A,*-(user)->A".toList

/-- Constant `AnySite Source = "*->A"`. -/
def AnySite : Source := "*->A".toList

/-- Model of `type Expiration struct { Session bool; At time.Time; After time.Duration }`. -/
structure Expiration where
  Session : Bool
  At : GoTime
  After : Int
deriving DecidableEq

/-- Model of `var WhenUAIsClosed = Expiration{Session: true}`. -/
def WhenUAIsClosed : Expiration := ⟨true, GoTime.zero, 0⟩

/-- Model of `func At(t time.Time) Expiration`. -/
def At (t : GoTime) : Expiration := ⟨false, t, 0⟩

/-- Model of `func After(d time.Duration) Expiration`. -/
def After (d : Int) : Expiration := ⟨false, GoTime.zero, d⟩

/-- Model of `func Immediately() Expiration`, i.e. `Expiration{After: -time.Second}`. -/
def Immediately : Expiration := ⟨false, GoTime.zero, -1000000000⟩

/-- Model of `http.SameSite` (the three modes this package produces, plus the
zero value `SameSiteDefaultMode`). -/
inductive SameSiteMode where
  | defaultMode
  | laxMode
  | strictMode
  | noneMode
deriving DecidableEq

/-- Model of `http.Cookie`, restricted to the fields this package sets; the
remaining fields keep their zero values and play no part in `Cookie.Valid`. -/
structure Cookie where
  Name : GoStr
  Value : GoStr
  Domain : GoStr
  Path : GoStr
  Expires : GoTime
  MaxAge : Int
  Secure : Bool
  HttpOnly : Bool
  SameSite : SameSiteMode
deriving DecidableEq

/-- Model of `type Intent struct`. -/
structure Intent where
  Name : GoStr
  Value : GoStr
  Expires : Expiration
  ReturnTo : GoStr
  ReturnOnNavigationFrom : Source
  RevealToJavaScript : Bool
deriving DecidableEq

/-- Model of `strings.Cut(s, sep)`: split `s` around the first occurrence of
`sep`; `none` models `ok = false` (the Go callers use the halves only when
`ok` is true). -/
def goCut (sep : GoStr) : GoStr → Option (GoStr × GoStr)
  | [] => if sep.isPrefixOf ([] : GoStr) then some ([], []) else none
  | c :: rest =>
    if sep.isPrefixOf (c :: rest) then some ([], (c :: rest).drop sep.length)
    else
      match goCut sep rest with
      | none => none
      | some (pre, post) => some (c :: pre, post)

/-- Model of `strings.TrimSuffix`. -/
def goTrimSuffix (s suf : GoStr) : GoStr :=
  if suf.isSuffixOf s then s.take (s.length - suf.length) else s

/-- Error sites of `parseReturnTo`, one constructor per `fmt.Errorf`. -/
inductive ParseError where
  | notUrl
  | badSchema
  | noPath
  | domainWithoutStars
  | domainLeadingDot
  | pathWithoutStars
deriving DecidableEq

/-- The schema switch of `parseReturnTo`. -/
def parseSchema (schema : GoStr) : Except ParseError Bool :=
  if schema = ("https".toList) then .ok true
  else if schema = ("https?".toList) then .ok false
  else .error .badSchema

/-- The domain branch of `parseReturnTo`; `domain.drop 3` models
`strings.TrimPrefix(domain, "**.")`, whose prefix is present when reached. -/
def parseDomain (domain : GoStr) : Except ParseError GoStr :=
  if domain = ("<current>".toList) then .ok []
  else if !(("**.".toList).isPrefixOf domain) then .error .domainWithoutStars
  else if (".".toList).isPrefixOf (domain.drop 3) then .error .domainLeadingDot
  else .ok (domain.drop 3)

/-- The path suffix handling of `parseReturnTo`. -/
def parsePath (path : GoStr) : Except ParseError GoStr :=
  if !(("**".toList).isSuffixOf path) then .error .pathWithoutStars
  else if goTrimSuffix path ("**".toList) = [] then .ok ("/".toList)
  else .ok (goTrimSuffix path ("**".toList))

/-- Model of `func parseReturnTo(returnTo string) (bool, string, string, error)`. -/
def parseReturnTo (returnTo : GoStr) : Except ParseError (Bool × GoStr × GoStr) :=
  if returnTo = [] then .ok (true, [], "/".toList)
  else
    match goCut ("://".toList) returnTo with
    | none => .error .notUrl
    | some (schema, rest) =>
      match parseSchema schema with
      | .error e => .error e
      | .ok secure =>
        match goCut ("/".toList) rest with
        | none => .error .noPath
        | some (domain, path) =>
          match parseDomain domain with
          | .error e => .error e
          | .ok domain2 =>
            match parsePath path with
            | .error e => .error e
            | .ok path2 => .ok (secure, domain2, path2)

/-- Error sites of the delegated `http.Cookie.Valid` check. -/
inductive ValidError where
  | invalidName
  | invalidExpires
  | invalidValueByte
  | invalidPathByte
  | invalidDomain
deriving DecidableEq

/-- Error sites of `Compile`, one constructor per `fmt.Errorf`, plus the two
propagated channels (scope parsing, delegated cookie validation). -/
inductive CompileError where
  | conflictingExpiration
  | scope (e : ParseError)
  | missingExpiration
  | securePrefixViolation
  | hostPrefixViolation
  | unsupportedPolicy (s : Source)
  | insecureNone
  | invalidCookie (e : ValidError)
deriving DecidableEq

/-- Model of `httpguts.IsTokenRune` (RFC 2616 token characters). -/
def isTokenChar (c : Char) : Bool :=
  c.isAlpha || c.isDigit ||
  c ∈ ['!', '#', '$', '%', '&', Char.ofNat 39, '*', '+', '-', '.',
       '^', '_', Char.ofNat 96, '|', '~']

/-- Model of `net/http.isCookieNameValid`. -/
def isCookieNameValid (name : GoStr) : Bool :=
  !name.isEmpty && name.all isTokenChar

/-- Model of `net/http.validCookieExpires`: `t.Year() >= 1601`. With times as
UTC instants this holds exactly when `t` is at or after 1601-01-01T00:00:00Z;
the 1600 proleptic-Gregorian years before that are 4 full 400-year cycles of
146097 days, hence 584388 days after the zero time. -/
def validCookieExpires (t : GoTime) : Bool :=
  decide (584388 * 86400 * 1000000000 ≤ t.ns)

/-- Model of `net/http.validCookieValueByte`, at character level. -/
def validCookieValueByte (c : Char) : Bool :=
  decide (0x20 ≤ c.toNat) && decide (c.toNat < 0x7f) &&
  !(c == '"') && !(c == ';') && !(c == '\\')

/-- Model of `net/http.validCookiePathByte`, at character level. -/
def validCookiePathByte (c : Char) : Bool :=
  decide (0x20 ≤ c.toNat) && decide (c.toNat < 0x7f) && !(c == ';')

/-- The scanning loop of `net/http.isCookieDomainName`; `last`, `ok` and
`partlen` carry the Go loop state. -/
def cookieDomainLoop : GoStr → Char → Bool → Nat → Bool
  | [], last, ok, partlen => !(last == '-') && decide (partlen ≤ 63) && ok
  | c :: rest, last, ok, partlen =>
    if c.isAlpha then cookieDomainLoop rest c true (partlen + 1)
    else if c.isDigit then cookieDomainLoop rest c ok (partlen + 1)
    else if c == '-' then
      if last == '.' then false else cookieDomainLoop rest c ok (partlen + 1)
    else if c == '.' then
      if last == '.' || last == '-' then false
      else if partlen > 63 ∨ partlen = 0 then false
      else cookieDomainLoop rest c ok 0
    else false

/-- Model of `net/http.isCookieDomainName`. -/
def isCookieDomainName (s : GoStr) : Bool :=
  if s.length = 0 then false
  else if s.length > 255 then false
  else cookieDomainLoop (if s.head? = some '.' then s.drop 1 else s) '.' false 0

/-- One dotted-quad field as `net.ParseIP` accepts it (digits only, at most
three of them, no redundant leading zero, value at most 255). -/
def ipv4Field (f : GoStr) : Bool :=
  !f.isEmpty && f.all Char.isDigit && decide (f.length ≤ 3) &&
  !(decide (1 < f.length) && f.head? == some '0') &&
  decide (f.foldl (fun n c => n * 10 + (c.toNat - 48)) 0 ≤ 255)

/-- Dotted-quad IPv4 check: `net.ParseIP(v) != nil` restricted to colon-free
input, as used by `validCookieDomain`. -/
def isIPv4 (s : GoStr) : Bool :=
  let parts := s.splitOn '.'
  parts.length == 4 && parts.all ipv4Field

/-- Model of `net/http.validCookieDomain`. -/
def validCookieDomain (v : GoStr) : Bool :=
  isCookieDomainName v || (isIPv4 v && !(v.contains ':'))

/-- Model of `http.Cookie.Valid`, restricted to the fields this package sets
(the Go method checks them in this order and returns on the first failure). -/
def cookieValid (c : Cookie) : Except ValidError Unit :=
  if !(isCookieNameValid c.Name) then .error .invalidName
  else if !(c.Expires.isZero) && !(validCookieExpires c.Expires) then .error .invalidExpires
  else if !(c.Value.all validCookieValueByte) then .error .invalidValueByte
  else if decide (0 < c.Path.length) && !(c.Path.all validCookiePathByte) then .error .invalidPathByte
  else if decide (0 < c.Domain.length) && !(validCookieDomain c.Domain) then .error .invalidDomain
  else .ok ()

/-- The expiration switch of `Compile`, producing the `(expires, maxAge)`
pair. Go computes `int(After.Seconds())` through `float64`; this is modelled
as exact truncating division of nanoseconds by one second, which agrees with
the float computation except for pathological sub-second components of
durations beyond roughly 194 days in magnitude. -/
def resolveExpiration (e : Expiration) : Except CompileError (GoTime × Int) :=
  if !(e.At.isZero) then .ok (e.At, 0)
  else if e.After != 0 then .ok (GoTime.zero, Int.tdiv e.After 1000000000)
  else if e.Session then .ok (GoTime.zero, 0)
  else .error .missingExpiration

/-- The `ReturnOnNavigationFrom` switch of `Compile`. -/
def resolveSameSite (s : Source) : Except CompileError SameSiteMode :=
  if s = SameSite then .ok .strictMode
  else if s = SameSiteOrAnySiteByUser ∨ s = [] then .ok .laxMode
  else if s = AnySite then .ok .noneMode
  else .error (.unsupportedPolicy s)

/-- The cookie record assembled at the end of `Compile`. -/
def assembleCookie (i : Intent) (secure : Bool) (domain path : GoStr)
    (expires : GoTime) (maxAge : Int) (sameSite : SameSiteMode) : Cookie :=
  { Name := i.Name, Value := i.Value, Domain := domain, Path := path,
    Expires := expires, MaxAge := maxAge, Secure := secure,
    HttpOnly := !i.RevealToJavaScript, SameSite := sameSite }

/-- Model of `func Compile(i Intent) (*http.Cookie, error)`. -/
def Compile (i : Intent) : Except CompileError Cookie :=
  if i.Expires.After != 0 && !(i.Expires.At.isZero) then
    .error .conflictingExpiration
  else
    match parseReturnTo i.ReturnTo with
    | .error e => .error (.scope e)
    | .ok (secure, domain, path) =>
      match resolveExpiration i.Expires with
      | .error e => .error e
      | .ok (expires, maxAge) =>
        if ("__Secure-".toList).isPrefixOf i.Name && !secure then
          .error .securePrefixViolation
        else if ("__Host-".toList).isPrefixOf i.Name &&
            (!secure || domain != ([] : GoStr) || path != ("/".toList)) then
          .error .hostPrefixViolation
        else
          match resolveSameSite i.ReturnOnNavigationFrom with
          | .error e => .error e
          | .ok sameSite =>
            if !secure && sameSite == SameSiteMode.noneMode then
              .error .insecureNone
            else
              match cookieValid (assembleCookie i secure domain path expires maxAge sameSite) with
              | .error e => .error (.invalidCookie e)
              | .ok _ => .ok (assembleCookie i secure domain path expires maxAge sameSite)

/-- Success test for an `Except` result. -/
def exceptIsOk {ε α : Type} : Except ε α → Bool
  | .ok _ => true
  | .error _ => false

/-! Shared inversion lemmas about the compilation pipeline. -/

/-- When the expiration switch succeeds, it fills at most one of the two
representations: either the absolute time is the zero time, or the max-age
is zero. -/
lemma resolveExpiration_ok_cases (e : Expiration) (t : GoTime) (m : Int)
    (h : resolveExpiration e = .ok (t, m)) : t.isZero = true ∨ m = 0 := by
  unfold resolveExpiration at h
  split at h
  · injection h with h'
    injection h' with h1 h2
    exact Or.inr h2.symm
  · split at h
    · injection h with h'
      injection h' with h1 h2
      exact Or.inl (h1 ▸ rfl)
    · split at h
      · injection h with h'
        injection h' with h1 h2
        exact Or.inl (h1 ▸ rfl)
      · exact absurd h (by simp)

/-- A successful compilation passes through every stage: the scope parses,
the expiration resolves, the navigation policy maps, and the result is the
assembled record. -/
lemma compile_ok_inv (i : Intent) (c : Cookie) (h : Compile i = .ok c) :
    ∃ secure domain path expires maxAge sameSite,
      parseReturnTo i.ReturnTo = .ok (secure, domain, path) ∧
      resolveExpiration i.Expires = .ok (expires, maxAge) ∧
      resolveSameSite i.ReturnOnNavigationFrom = .ok sameSite ∧
      c = assembleCookie i secure domain path expires maxAge sameSite := by
  unfold Compile at h
  split at h
  · exact absurd h (by simp)
  · split at h
    · exact absurd h (by simp)
    · rename_i secure domain path heq
      split at h
      · exact absurd h (by simp)
      · rename_i expires maxAge heq2
        split at h
        · exact absurd h (by simp)
        · split at h
          · exact absurd h (by simp)
          · split at h
            · exact absurd h (by simp)
            · rename_i sameSite heq3
              split at h
              · exact absurd h (by simp)
              · split at h
                · exact absurd h (by simp)
                · injection h with h'
                  exact ⟨secure, domain, path, expires, maxAge, sameSite,
                    heq, heq2, heq3, h'.symm⟩

/-! The claims. -/

/-- C1. The specification claims every path prefix returned by the scope
parser begins with a slash. The code splits host from path on the first
slash of the remainder, which consumes that slash: the pattern
`https://<current>/foo/**` parses to the path prefix `foo/`, which does not
begin with `/`, and the compiled cookie carries `Path = "foo/"` verbatim. -/
theorem c1_path_slash_lost :
    parseReturnTo ("https://<current>/foo/**".toList) =
      .ok (true, [], "foo/".toList) ∧
    (("/".toList).isPrefixOf ("foo/".toList)) = false ∧
    Compile ⟨"test".toList, "value".toList, After 86400000000000,
        "https://<current>/foo/**".toList, [], false⟩ =
      .ok ⟨"test".toList, "value".toList, [], "foo/".toList, GoTime.zero,
        86400, true, true, .laxMode⟩ :=
  ⟨rfl, rfl, rfl⟩

/-- C2 counterexample. An intent whose relative duration is exactly zero,
with no absolute timestamp and the session flag unset, does not compile to a
zero max-age: the `After != 0` guard sends it to the default branch, which
fails with the missing-expiration error. -/
theorem c2_counterexample :
    Compile ⟨"test".toList, "value".toList, ⟨false, GoTime.zero, 0⟩, [], [],
        false⟩ =
      .error .missingExpiration :=
  rfl

/-- C2 amended. A relative duration of exactly zero (no absolute timestamp,
session unset) makes `Compile` fail with the missing-expiration error
whenever the scope pattern parses. -/
theorem c2_zero_after_missing_expiration (i : Intent)
    (h0 : i.Expires.After = 0) (hz : i.Expires.At.isZero = true)
    (hs : i.Expires.Session = false)
    (t : Bool × GoStr × GoStr) (hp : parseReturnTo i.ReturnTo = .ok t) :
    Compile i = .error .missingExpiration := by
  obtain ⟨sec, dom, path⟩ := t
  have hres : resolveExpiration i.Expires = .error .missingExpiration := by
    unfold resolveExpiration
    rw [hz, h0, hs]
    rfl
  unfold Compile
  rw [h0]
  simp only [hp, hres, bne_self_eq_false, Bool.false_and, Bool.false_eq_true,
    if_false]

/-- C2 amended, witness. -/
theorem c2_witness :
    Compile ⟨"t".toList, "v".toList, ⟨false, GoTime.zero, 0⟩,
        "https://<current>/**".toList, [], false⟩ =
      .error .missingExpiration :=
  c2_zero_after_missing_expiration _ rfl rfl rfl (true, [], "/".toList) rfl

/-- C10. The host pattern `**.` with nothing after the wildcard prefix is
accepted: stripping `**.` leaves the empty suffix, which is not a leading
dot, so the parse succeeds with an empty domain suffix — the same scope
triple as the host `<current>`. -/
theorem c10_bare_wildcard_host :
    parseReturnTo ("https://**./**".toList) = .ok (true, [], "/".toList) ∧
    parseReturnTo ("https://<current>/**".toList) =
      .ok (true, [], "/".toList) :=
  ⟨rfl, rfl⟩

/-- C3 counterexample. The parser only rejects a domain suffix with a
leading dot; embedded empty labels pass through: `https://**.a..b/**` is
accepted and returns the suffix `a..b`, which contains `..`. -/
theorem c3_counterexample :
    parseReturnTo ("https://**.a..b/**".toList) =
      .ok (true, "a..b".toList, "/".toList) ∧
    ("..".toList) <:+: ("a..b".toList) :=
  ⟨rfl, by decide⟩

/-- C3 amended. Every domain suffix returned by the scope parser is either
empty or free of a leading dot (embedded empty labels are not rejected by
the parser). -/
theorem c3_domain_suffix_no_leading_dot (s : GoStr) (sec : Bool)
    (dom path : GoStr) (h : parseReturnTo s = .ok (sec, dom, path)) :
    dom = [] ∨ ((".".toList).isPrefixOf dom) = false := by
  unfold parseReturnTo at h
  split at h
  · injection h with h'
    injection h' with h1 h2
    injection h2 with h3 h4
    exact Or.inl h3.symm
  · split at h
    · exact absurd h (by simp)
    · split at h
      · exact absurd h (by simp)
      · split at h
        · exact absurd h (by simp)
        · rename_i domain0 path0 heq
          split at h
          · exact absurd h (by simp)
          · rename_i domain2 heqDom
            split at h
            · exact absurd h (by simp)
            · rename_i path2 heqPath
              injection h with h'
              injection h' with h1 h2
              injection h2 with h3 h4
              subst h3
              unfold parseDomain at heqDom
              split at heqDom
              · injection heqDom with h5
                exact Or.inl h5.symm
              · split at heqDom
                · exact absurd heqDom (by simp)
                · split at heqDom
                  · exact absurd heqDom (by simp)
                  · rename_i hNoDot
                    injection heqDom with h5
                    subst h5
                    exact Or.inr (Bool.not_eq_true _ ▸ hNoDot)

/-- C3 amended, witness. -/
theorem c3_witness :
    ("example.com".toList = ([] : GoStr) ∨
      ((".".toList).isPrefixOf ("example.com".toList)) = false) :=
  c3_domain_suffix_no_leading_dot ("https://**.example.com/**".toList) true
    ("example.com".toList) ("/".toList) rfl

/-- C4. The empty `ReturnTo` string resolves to the most restrictive scope
(secure-only, exact current host, root path), and the intent
`{Name: "test", Value: "value", Expires: After(24h)}` compiles to a cookie
with `Path = "/"`, empty domain, `Secure`, `HttpOnly`, `SameSite = Lax`,
`MaxAge = 86400`, and the zero (unset) absolute expiry. -/
theorem c4_empty_returnTo_defaults :
    parseReturnTo ([] : GoStr) = .ok (true, [], "/".toList) ∧
    Compile ⟨"test".toList, "value".toList, After 86400000000000, [], [],
        false⟩ =
      .ok ⟨"test".toList, "value".toList, [], "/".toList, GoTime.zero, 86400,
        true, true, .laxMode⟩ :=
  ⟨rfl, rfl⟩

/-- C7. When the expiration carries both an absolute timestamp and a
non-zero relative duration, `Compile` fails with the conflicting-expiration
error for every intent, whatever its other fields — in particular before the
scope pattern is even parsed. -/
theorem c7_conflicting_expiration (i : Intent)
    (hAfter : i.Expires.After ≠ 0) (hAt : i.Expires.At.isZero = false) :
    Compile i = .error .conflictingExpiration := by
  have hguard : (i.Expires.After != 0 && !(i.Expires.At.isZero)) = true := by
    simp [hAt, bne_iff_ne, hAfter]
  unfold Compile
  rw [hguard]
  rfl

/-- C7 witness: the conflicting-expiration failure fires even on an intent
whose `ReturnTo` would not parse. -/
theorem c7_witness :
    Compile ⟨"test".toList, "value".toList, ⟨false, ⟨1⟩, 5⟩,
        "notaurl".toList, [], false⟩ =
      .error .conflictingExpiration :=
  c7_conflicting_expiration _ (by decide) (by decide)

/-- Once the conflict guard is passed, the scope has parsed and the
expiration has resolved, `Compile` is exactly its remaining tail: the two
name-prefix checks, the navigation-policy switch, the secure/SameSite=None
check, and assembly plus delegated validation. -/
lemma compile_after_expiration (i : Intent) (sec : Bool) (dom path : GoStr)
    (t : GoTime) (m : Int)
    (hconf : (i.Expires.After != 0 && !(i.Expires.At.isZero)) = false)
    (hp : parseReturnTo i.ReturnTo = .ok (sec, dom, path))
    (hres : resolveExpiration i.Expires = .ok (t, m)) :
    Compile i =
      (if ("__Secure-".toList).isPrefixOf i.Name && !sec then
        .error .securePrefixViolation
      else if ("__Host-".toList).isPrefixOf i.Name &&
          (!sec || dom != ([] : GoStr) || path != ("/".toList)) then
        .error .hostPrefixViolation
      else
        match resolveSameSite i.ReturnOnNavigationFrom with
        | .error e => .error e
        | .ok sameSite =>
          if !sec && sameSite == SameSiteMode.noneMode then
            .error .insecureNone
          else
            match cookieValid (assembleCookie i sec dom path t m sameSite) with
            | .error e => .error (.invalidCookie e)
            | .ok _ => .ok (assembleCookie i sec dom path t m sameSite)) := by
  unfold Compile
  rw [hconf, hp, hres]
  rfl

/-- A scope failure propagates as the wrapped scope error. -/
lemma compile_scope_error (i : Intent) (e : ParseError)
    (hconf : (i.Expires.After != 0 && !(i.Expires.At.isZero)) = false)
    (hp : parseReturnTo i.ReturnTo = .error e) :
    Compile i = .error (.scope e) := by
  unfold Compile
  rw [hconf, hp]
  rfl

/-- The navigation-policy switch only ever fails with the
unsupported-policy error. -/
lemma resolveSameSite_error (s : Source) (e : CompileError)
    (h : resolveSameSite s = .error e) : e = .unsupportedPolicy s := by
  unfold resolveSameSite at h
  split at h
  · exact absurd h (by simp)
  · split at h
    · exact absurd h (by simp)
    · split at h
      · exact absurd h (by simp)
      · injection h with h'
        exact h'.symm

/-- A `__Host-`-prefixed name is never `__Secure-`-prefixed. -/
lemma host_not_secure_name (n : GoStr)
    (h : (("__Host-".toList).isPrefixOf n) = true) :
    (("__Secure-".toList).isPrefixOf n) = false := by
  by_contra hc
  rw [Bool.not_eq_false] at hc
  rw [List.isPrefixOf_iff_prefix] at h hc
  rcases List.prefix_or_prefix_of_prefix h hc with h1 | h1
  · exact absurd (List.isPrefixOf_iff_prefix.mpr h1) (by decide)
  · exact absurd (List.isPrefixOf_iff_prefix.mpr h1) (by decide)

/-- C5. A `__Host-`-prefixed name compiles only against the (secure, exact
current host, root path) scope: for every resolved scope violating that,
`Compile` never succeeds, and once the expiration checks pass it fails with
the prefix-constraint error. Instantiating the scope with the parses of
`https://**.example.com/**` (non-empty domain suffix) or
`https://<current>/foo/**` (path prefix not `/`) shows those patterns always
fail for such a name. -/
theorem c5_host_requires_root_scope (i : Intent)
    (hname : (("__Host-".toList).isPrefixOf i.Name) = true)
    (sec : Bool) (dom path : GoStr)
    (hp : parseReturnTo i.ReturnTo = .ok (sec, dom, path))
    (hbad : ¬(sec = true ∧ dom = [] ∧ path = "/".toList)) :
    exceptIsOk (Compile i) = false ∧
    ((i.Expires.After != 0 && !(i.Expires.At.isZero)) = false →
      ∀ t m, resolveExpiration i.Expires = .ok (t, m) →
      Compile i = .error .hostPrefixViolation) := by
  have hguard : (!sec || dom != ([] : GoStr) || path != ("/".toList)) = true := by
    cases sec with
    | false => simp
    | true =>
      by_cases h2 : dom = []
      · have h3 : path ≠ "/".toList := fun hx => hbad ⟨rfl, h2, hx⟩
        have h4 : (path != ("/".toList)) = true := bne_iff_ne.mpr h3
        simp only [h4, Bool.or_true, Bool.true_or]
      · have h4 : (dom != ([] : GoStr)) = true := bne_iff_ne.mpr h2
        simp only [h4, Bool.or_true, Bool.true_or]
  have hsec2 : (("__Secure-".toList).isPrefixOf i.Name) = false :=
    host_not_secure_name i.Name hname
  have tailEq : ∀ hconf : (i.Expires.After != 0 && !(i.Expires.At.isZero)) = false,
      ∀ t m, resolveExpiration i.Expires = .ok (t, m) →
      Compile i = .error .hostPrefixViolation := by
    intro hconf t m hres
    rw [compile_after_expiration i sec dom path t m hconf hp hres]
    rw [hsec2, hname, hguard]
    rfl
  refine ⟨?_, tailEq⟩
  cases hconf : (i.Expires.After != 0 && !(i.Expires.At.isZero)) with
  | true =>
    have : Compile i = .error .conflictingExpiration := by
      unfold Compile
      rw [hconf]
      rfl
    rw [this]
    rfl
  | false =>
    rcases hres : resolveExpiration i.Expires with e | ⟨t, m⟩
    · have : Compile i = .error e := by
        unfold Compile
        rw [hconf, hp, hres]
        rfl
      rw [this]
      rfl
    · rw [tailEq hconf t m hres]
      rfl

/-- C5 witness: a `__Host-` name with `ReturnTo = "https://**.example.com/**"`
fails with the prefix-constraint error and never compiles. -/
theorem c5_witness :
    exceptIsOk (Compile ⟨"__Host-test".toList, "value".toList,
      After 86400000000000, "https://**.example.com/**".toList, [], false⟩) =
      false ∧
    Compile ⟨"__Host-test".toList, "value".toList, After 86400000000000,
        "https://**.example.com/**".toList, [], false⟩ =
      .error .hostPrefixViolation := by
  have h := c5_host_requires_root_scope
    ⟨"__Host-test".toList, "value".toList, After 86400000000000,
      "https://**.example.com/**".toList, [], false⟩
    (by decide) true ("example.com".toList) ("/".toList) rfl (by decide)
  exact ⟨h.1, h.2 rfl GoTime.zero 86400 rfl⟩

/-- C9. A successful compilation never populates both expiration
representations: the absolute expiry is the zero (unset) time or the
max-age is zero. -/
theorem c9_expiry_exclusive (i : Intent) (c : Cookie)
    (h : Compile i = .ok c) :
    c.Expires.isZero = true ∨ c.MaxAge = 0 := by
  obtain ⟨sec, dom, path, t, m, ss, hp, hres, hss, hc⟩ := compile_ok_inv i c h
  subst hc
  exact resolveExpiration_ok_cases i.Expires t m hres

/-- C9 witness, instantiated on a compiled session cookie. -/
theorem c9_witness :
    (⟨"s".toList, "v".toList, [], "/".toList, GoTime.zero, 0, true, true,
      .laxMode⟩ : Cookie).Expires.isZero = true ∨
    (⟨"s".toList, "v".toList, [], "/".toList, GoTime.zero, 0, true, true,
      .laxMode⟩ : Cookie).MaxAge = 0 :=
  c9_expiry_exclusive ⟨"s".toList, "v".toList, WhenUAIsClosed, [], [], false⟩
    _ rfl

/-- C6. With the "any site" navigation policy, an insecure scope makes
`Compile` fail with the insecure-None error, while a secure scope (all other
checks passing) succeeds with `SameSite = None`; and the policy switch maps
"same-site only" to Strict, "same-site or any-site when user-initiated" and
the unset policy to Lax, "any site" to None, and anything else to the
unsupported-policy error. -/
theorem c6_any_site_policy :
    (∀ (i : Intent) (sec : Bool) (dom path : GoStr) (t : GoTime) (m : Int),
      i.ReturnOnNavigationFrom = AnySite →
      (i.Expires.After != 0 && !(i.Expires.At.isZero)) = false →
      parseReturnTo i.ReturnTo = .ok (sec, dom, path) →
      resolveExpiration i.Expires = .ok (t, m) →
      (("__Secure-".toList).isPrefixOf i.Name && !sec) = false →
      (("__Host-".toList).isPrefixOf i.Name &&
        (!sec || dom != ([] : GoStr) || path != ("/".toList))) = false →
      (sec = false → Compile i = .error .insecureNone) ∧
      (sec = true →
        cookieValid (assembleCookie i sec dom path t m .noneMode) = .ok () →
        Compile i = .ok (assembleCookie i sec dom path t m .noneMode))) ∧
    resolveSameSite SameSite = .ok .strictMode ∧
    resolveSameSite SameSiteOrAnySiteByUser = .ok .laxMode ∧
    resolveSameSite ([] : Source) = .ok .laxMode ∧
    resolveSameSite AnySite = .ok .noneMode ∧
    (∀ s : Source, s ≠ SameSite → s ≠ SameSiteOrAnySiteByUser →
      s ≠ ([] : Source) → s ≠ AnySite →
      resolveSameSite s = .error (.unsupportedPolicy s)) := by
  refine ⟨?_, rfl, rfl, rfl, rfl, ?_⟩
  · intro i sec dom path t m hnav hconf hp hres hg1 hg2
    have hstep := compile_after_expiration i sec dom path t m hconf hp hres
    rw [hg1, hg2, hnav] at hstep
    constructor
    · intro hsec
      subst hsec
      rw [hstep]
      rfl
    · intro hsec hvalid
      subst hsec
      rw [hstep]
      show (match cookieValid (assembleCookie i true dom path t m
              SameSiteMode.noneMode) with
            | .error e => Except.error (CompileError.invalidCookie e)
            | .ok _ =>
              Except.ok (assembleCookie i true dom path t m
                SameSiteMode.noneMode)) =
          Except.ok (assembleCookie i true dom path t m SameSiteMode.noneMode)
      rw [hvalid]
  · intro s h1 h2 h3 h4
    unfold resolveSameSite
    rw [if_neg h1, if_neg (fun h => Or.elim h h2 h3), if_neg h4]

/-- C6 witness: the insecure any-site intent fails with the insecure-None
error; the secure one compiles with `SameSite = None`. -/
theorem c6_witness :
    Compile ⟨"test".toList, "value".toList, After 86400000000000,
        "https?://<current>/**".toList, AnySite, false⟩ =
      .error .insecureNone ∧
    Compile ⟨"test".toList, "value".toList, After 86400000000000, [],
        AnySite, false⟩ =
      .ok (assembleCookie
        ⟨"test".toList, "value".toList, After 86400000000000, [], AnySite,
          false⟩ true [] ("/".toList) GoTime.zero 86400 .noneMode) := by
  constructor
  · exact ((c6_any_site_policy.1
      ⟨"test".toList, "value".toList, After 86400000000000,
        "https?://<current>/**".toList, AnySite, false⟩
      false [] ("/".toList) GoTime.zero 86400 rfl rfl rfl rfl rfl rfl).1) rfl
  · exact ((c6_any_site_policy.1
      ⟨"test".toList, "value".toList, After 86400000000000, [], AnySite,
        false⟩
      true [] ("/".toList) GoTime.zero 86400 rfl rfl rfl rfl rfl rfl).2)
      rfl rfl

/-- C8. A negative relative duration (with the absolute timestamp unset)
resolves to a non-positive max-age with the zero (unset) absolute expiry,
never raises the missing-expiration error, and any successful compilation of
such an intent carries max-age at most zero and no absolute expiry. -/
theorem c8_negative_after (i : Intent) (hneg : i.Expires.After < 0)
    (hz : i.Expires.At.isZero = true) :
    resolveExpiration i.Expires =
      .ok (GoTime.zero, Int.tdiv i.Expires.After 1000000000) ∧
    Int.tdiv i.Expires.After 1000000000 ≤ 0 ∧
    Compile i ≠ .error .missingExpiration ∧
    (∀ c, Compile i = .ok c → c.MaxAge ≤ 0 ∧ c.Expires.isZero = true) := by
  have hne : i.Expires.After ≠ 0 := Int.ne_of_lt hneg
  have hb : (i.Expires.After != 0) = true := bne_iff_ne.mpr hne
  have hres : resolveExpiration i.Expires =
      .ok (GoTime.zero, Int.tdiv i.Expires.After 1000000000) := by
    unfold resolveExpiration
    rw [hz, hb]
    rfl
  have htd : Int.tdiv i.Expires.After 1000000000 ≤ 0 := by
    have h1 : (0 : Int) ≤ -i.Expires.After := by omega
    have h2 : (0 : Int) ≤ 1000000000 := by omega
    have h3 := Int.tdiv_nonneg h1 h2
    rw [Int.neg_tdiv] at h3
    omega
  have hconf : (i.Expires.After != 0 && !(i.Expires.At.isZero)) = false := by
    rw [hz]
    simp
  refine ⟨hres, htd, ?_, ?_⟩
  · intro hEq
    rcases hP : parseReturnTo i.ReturnTo with e | ⟨sec, dom, path⟩
    · rw [compile_scope_error i e hconf hP] at hEq
      exact absurd hEq (by simp)
    · rw [compile_after_expiration i sec dom path _ _ hconf hP hres] at hEq
      split at hEq
      · exact absurd hEq (by simp)
      · split at hEq
        · exact absurd hEq (by simp)
        · split at hEq
          · rename_i e heq
            rw [resolveSameSite_error _ e heq] at hEq
            exact absurd hEq (by simp)
          · split at hEq
            · exact absurd hEq (by simp)
            · split at hEq
              · exact absurd hEq (by simp)
              · exact absurd hEq (by simp)
  · intro c hc
    obtain ⟨sec, dom, path, t, m, ss, hp2, hres2, hss2, hcc⟩ :=
      compile_ok_inv i c hc
    rw [hres] at hres2
    injection hres2 with h'
    injection h' with h1 h2
    subst hcc
    exact ⟨h2 ▸ htd, h1 ▸ rfl⟩

/-- C8 witness: the `Immediately()` expiration (duration `-time.Second`)
resolves to max-age `-1` and its compilation never reports a missing
expiration. -/
theorem c8_witness :
    resolveExpiration
        (⟨"expired".toList, "value".toList, Immediately, [], [],
          false⟩ : Intent).Expires =
      .ok (GoTime.zero, -1) ∧
    Compile ⟨"expired".toList, "value".toList, Immediately, [], [], false⟩ ≠
      .error .missingExpiration := by
  have h := c8_negative_after
    ⟨"expired".toList, "value".toList, Immediately, [], [], false⟩
    (by decide) rfl
  exact ⟨h.1, h.2.2.1⟩

end Cookies
